import Mathlib

/-!
Verification development for the sports-card export reconciliation engine
(backend/src/controllers/exportController.ts together with the configuration
defaults in src/config.ts).

JavaScript strings are modelled as lists of characters (`Str`), so that
`s.length`, `s.substring(0, n)`, `s.includes(t)`, `s.trim()` and the one
regular expression used by the code become plain executable list functions.
A missing (undefined) optional text field is modelled as the empty list,
which is faithful because the code only ever tests these fields for
truthiness (empty string and undefined are both falsy) and feeds them
through `x || ""` before use.
-/

abbrev Str := List Char

def strOf (s : String) : Str := s.data

/-- Whitespace class of the JavaScript regular expression `\s` and of
`String.prototype.trim`. -/
def isJsSpace (ch : Char) : Bool :=
  ch == ' ' || ch == '\t' || ch == '\n' || ch == '\u000B' || ch == '\u000C' ||
  ch == '\r' || ch.toNat == 0xA0 || ch.toNat == 0x1680 ||
  (decide (0x2000 ≤ ch.toNat ∧ ch.toNat ≤ 0x200A)) ||
  ch.toNat == 0x2028 || ch.toNat == 0x2029 || ch.toNat == 0x202F ||
  ch.toNat == 0x205F || ch.toNat == 0x3000 || ch.toNat == 0xFEFF

/-- Line terminators, the characters NOT matched by `.` in a JavaScript
regular expression without the s flag. -/
def isLineTerm (ch : Char) : Bool :=
  ch == '\n' || ch == '\r' || ch.toNat == 0x2028 || ch.toNat == 0x2029

/-- Character class `[A-Z]`. -/
def isUpperAZ (ch : Char) : Bool := decide (65 ≤ ch.toNat ∧ ch.toNat ≤ 90)

/-- Character class `[a-z]`. -/
def isLowerAZ (ch : Char) : Bool := decide (97 ≤ ch.toNat ∧ ch.toNat ≤ 122)

/-- JavaScript `String.prototype.trim`: strip leading and trailing
whitespace. -/
def jsTrim (s : Str) : Str :=
  ((s.dropWhile isJsSpace).reverse.dropWhile isJsSpace).reverse

/-- JavaScript `hay.includes(needle)`. -/
def strIncludes (hay needle : Str) : Bool :=
  (List.range (hay.length + 1)).any fun i =>
    (hay.drop i).take needle.length == needle

/-- Matcher for the tail part `\s*,\s*[A-Z][a-z]+\s+[A-Z][a-z]+` of the
title-extraction regular expression, applied at a fixed position.  All the
adjacent character classes of this pattern are pairwise disjoint, so greedy
matching with backtracking coincides with this deterministic scan. -/
def suffixMatch (s : Str) : Bool :=
  match s.dropWhile isJsSpace with
  | [] => false
  | c0 :: s2 =>
    c0 == ',' &&
    (match s2.dropWhile isJsSpace with
     | [] => false
     | c1 :: s4 =>
       isUpperAZ c1 &&
       !(s4.takeWhile isLowerAZ).isEmpty &&
       (let s5 := s4.dropWhile isLowerAZ
        !(s5.takeWhile isJsSpace).isEmpty &&
        (match s5.dropWhile isJsSpace with
         | [] => false
         | c2 :: s7 => isUpperAZ c2 && !(s7.takeWhile isLowerAZ).isEmpty)))

/-- `s.match(/^(.{0,150}?)(?:\s*,\s*[A-Z][a-z]+\s+[A-Z][a-z]+)/)`, returning
capture group 1.  The lazy quantifier tries prefix lengths `n = 0, 1, ...`
in order; every character consumed by `.` must not be a line terminator,
and the rest of the pattern must match right after the prefix. -/
def matchTitle (s : Str) : Option Str :=
  ((List.range (min 150 s.length + 1)).find? fun n =>
      (s.take n).all (fun ch => !isLineTerm ch) && suffixMatch (s.drop n)).map
    fun n => s.take n

/-- Recovery for a title that appears to embed the description
(exportController.ts lines 67-75 and 227-235): use the trimmed regex capture
when it is non-empty, otherwise fall back to the trimmed first 100
characters. -/
def extractTitle (t : Str) : Str :=
  match matchTitle t with
  | some p => if p ≠ [] then jsTrim p else jsTrim (t.take 100)
  | none => jsTrim (t.take 100)

structure Normalized where
  year : Str
  set : Str
  cardNumber : Str
  title : Str
  playerFirstName : Str
  playerLastName : Str
  gradingCompany : Str
  grade : Str
  cert : Str
  caption : Str

deriving instance DecidableEq for Normalized

structure Card where
  normalized : Normalized
  autoTitle : Str
  autoDescription : Str

deriving instance DecidableEq for Card

/-- The in-process card store (models/cardStore), a key-value map. -/
abbrev Store := String → Option Card

def Store.set (s : Store) (k : String) (c : Card) : Store :=
  fun k2 => if k2 = k then some c else s k2

/-- The field swap performed by the repair block
(exportController.ts lines 39-41 and 149-151). -/
def swapCard (c : Card) : Card :=
  { c with autoTitle := c.autoDescription, autoDescription := c.autoTitle }

/-- Swap-defect detection and repair (lines 34-45 and 144-155): when both
generated fields are present, the title exceeds 200 characters and the
description is under 100 characters, the two fields are exchanged. -/
def swapRepair (c : Card) : Card :=
  if c.autoTitle ≠ [] ∧ c.autoDescription ≠ [] ∧
      200 < c.autoTitle.length ∧ c.autoDescription.length < 100 then
    swapCard c
  else c

/-- One validator pass over the store: fetch the card, apply the swap repair
and persist the repaired record back with cardsStore.set when a repair
occurred (lines 33-45 and 143-155). -/
def validatePass (s : Store) (cardId : String) : Store × Option Card :=
  match s cardId with
  | none => (s, none)
  | some c =>
    if c.autoTitle ≠ [] ∧ c.autoDescription ≠ [] ∧
        200 < c.autoTitle.length ∧ c.autoDescription.length < 100 then
      (Store.set s cardId (swapCard c), some (swapCard c))
    else (s, some c)

/-- Initial working listing title (lines 55-57 and 213-215): prefer a
non-blank autoTitle, otherwise the normalized title. -/
def workingTitle0 (c : Card) : Str :=
  if c.autoTitle ≠ [] ∧ jsTrim c.autoTitle ≠ [] then c.autoTitle
  else c.normalized.title

/-- Fallback title: the normalized title when non-empty, else the given
literal (lines 82 and 242 use "Untitled", line 263 uses "Untitled Card"). -/
def fallbackTitle (c : Card) (u : Str) : Str :=
  if c.normalized.title ≠ [] then c.normalized.title else u

/-- Embedded-description repair (lines 62-76 and 220-236). -/
def embeddedRepair (c : Card) (t : Str) : Str :=
  if 150 < t.length ∧ strIncludes t (c.autoDescription.take 50) = true then
    extractTitle t
  else t

/-- Identity-defect repair (lines 79-83 and 239-243). -/
def identityRepair (c : Card) (t : Str) : Str :=
  if t = c.autoDescription then fallbackTitle c (strOf "Untitled") else t

/-- The working listing title produced by the field-integrity validation
chain shared verbatim by the CSV path (lines 55-84) and the Sheets path
(lines 213-244). -/
def validatorTitle (c : Card) : Str :=
  if workingTitle0 c ≠ [] ∧ c.autoDescription ≠ [] then
    identityRepair c (embeddedRepair c (workingTitle0 c))
  else workingTitle0 c

/-- The extra final safety check present only in the Sheets path
(lines 254-265). -/
def finalSafety (c : Card) (t : Str) : Str :=
  if t ≠ [] ∧ c.autoDescription ≠ [] then
    if t = c.autoDescription ∨
        (200 < t.length ∧ strIncludes t (c.autoDescription.take 50) = true) then
      fallbackTitle c (strOf "Untitled Card")
    else t
  else t

/-- The working listing title of the Sheets path immediately before row
construction. -/
def sheetsTitle (c : Card) : Str := finalSafety c (validatorTitle c)

/-- The single CSV data record (lines 94-108), as header/value pairs. -/
def csvRow (c : Card) : List (String × Str) :=
  [("Year", c.normalized.year), ("Set", c.normalized.set),
   ("Card Number", c.normalized.cardNumber),
   ("Listing Title", validatorTitle c),
   ("Player First Name", c.normalized.playerFirstName),
   ("Player Last Name", c.normalized.playerLastName),
   ("Grading Company", c.normalized.gradingCompany),
   ("Grade", c.normalized.grade), ("Cert", c.normalized.cert),
   ("Listing Caption", c.normalized.caption),
   ("Auto Description", c.autoDescription)]

/-- POST /export/csv on a given store and card id: swap repair with
persistence, then the CSV data row (404 path yields none). -/
def csvExport (s : Store) (cardId : String) :
    Store × Option (List (String × Str)) :=
  ((validatePass s cardId).1, (validatePass s cardId).2.map csvRow)

/-- Header classification for a present header row
(exportController.ts lines 306-361): returns the description column index
and the needsHeaderUpdate flag. -/
def classifyHeader (h : List String) : Nat × Bool :=
  if h.length = 12 ∧ h.getD 11 "" = "Auto Description" then
    if h.getD 10 "" = "Auto Title" ∨ h.getD 10 "" = "Auto Description" then
      (11, decide (h.getD 10 "" = "Auto Description"))
    else (11, true)
  else if h.length = 11 ∧ h.getD 10 "" = "Auto Description" then (10, false)
  else (if 11 < h.length then 11 else 10, true)

/-- Classification over the read cell values: defaults (10, false) when no
row exists, otherwise classify the first row (lines 308-311). -/
def classifyValues (values : List (List String)) : Nat × Bool :=
  match values with
  | [] => (10, false)
  | h :: _ => classifyHeader h

def headers11 : List String :=
  ["Year", "Set", "Card Number", "Listing Title", "Player First Name",
   "Player Last Name", "Grading Company", "Grade", "Cert", "Listing Caption",
   "Auto Description"]

def headers12 : List String :=
  ["Year", "Set", "Card Number", "Listing Title", "Player First Name",
   "Player Last Name", "Grading Company", "Grade", "Cert", "Listing Caption",
   "Auto Title", "Auto Description"]

inductive RowError where
  | wrongLength : Nat → Nat → RowError
  | titleEqualsDesc : RowError
  | titleLongerThanDesc : RowError

deriving instance DecidableEq for RowError

/-- The row content built for the Sheets write (lines 383-420): 12 cells
when the classified description column index is 11, otherwise 11 cells. -/
def buildRowData (c : Card) (t : Str) (idx : Nat) : List Str :=
  if idx = 11 then
    [c.normalized.year, c.normalized.set, c.normalized.cardNumber, t,
     c.normalized.playerFirstName, c.normalized.playerLastName,
     c.normalized.gradingCompany, c.normalized.grade, c.normalized.cert,
     c.normalized.caption,
     (if c.autoTitle ≠ [] then c.autoTitle else t), c.autoDescription]
  else
    [c.normalized.year, c.normalized.set, c.normalized.cardNumber, t,
     c.normalized.playerFirstName, c.normalized.playerLastName,
     c.normalized.gradingCompany, c.normalized.grade, c.normalized.cert,
     c.normalized.caption, c.autoDescription]

/-- Row construction with the three post-build checks (lines 422-443); a
thrown Error is modelled as Except.error. -/
def buildRow (c : Card) (t : Str) (idx : Nat) : Except RowError (List Str) :=
  let rowData := buildRowData c t idx
  let expectedLength := if idx = 11 then 12 else 11
  if rowData.length ≠ expectedLength then
    Except.error (RowError.wrongLength rowData.length expectedLength)
  else if rowData.getD 3 [] ≠ [] ∧ rowData.getD idx [] ≠ [] ∧
      rowData.getD 3 [] = rowData.getD idx [] then
    Except.error RowError.titleEqualsDesc
  else if rowData.getD 3 [] ≠ [] ∧ rowData.getD idx [] ≠ [] ∧
      (rowData.getD idx []).length < (rowData.getD 3 []).length then
    Except.error RowError.titleLongerThanDesc
  else Except.ok rowData

inductive SheetWrite where
  | addSheet : String → SheetWrite
  | headerWrite : String → List String → SheetWrite
  | rowWrite : String → List Str → SheetWrite

deriving instance DecidableEq for SheetWrite

/-- True for the two values.update calls (header range and data row range),
false for the batchUpdate that merely adds a missing sheet tab. -/
def SheetWrite.isValuesUpdate : SheetWrite → Bool
  | SheetWrite.addSheet _ => false
  | SheetWrite.headerWrite _ _ => true
  | SheetWrite.rowWrite _ _ => true

/-- The Sheets write sequence after the card has been validated
(lines 267-524): add the sheet tab when missing, classify the existing
header, build and validate the row, then write the header when needed
(nextRow is 1 or the classifier flagged an update) followed by the data
row; a validation failure aborts before any values.update. -/
def sheetsPipeline (sheetName : String) (sheetExists : Bool)
    (existingValues : List (List String)) (c : Card) (t : Str) :
    List SheetWrite × Except RowError Nat :=
  let ws0 : List SheetWrite :=
    if sheetExists then [] else [SheetWrite.addSheet sheetName]
  let nextRow := existingValues.length + 1
  let idx := (classifyValues existingValues).1
  let needsHeaderUpdate := (classifyValues existingValues).2
  match buildRow c t idx with
  | Except.error e => (ws0, Except.error e)
  | Except.ok row =>
    let headerRange :=
      if idx = 11 then sheetName ++ "!A1:L1" else sheetName ++ "!A1:K1"
    let ws1 :=
      if nextRow = 1 ∨ needsHeaderUpdate then
        ws0 ++ [SheetWrite.headerWrite headerRange
          (if idx = 11 then headers12 else headers11)]
      else ws0
    let endColumn := if idx = 11 then "L" else "K"
    let rowRange := sheetName ++ "!A" ++ toString nextRow ++ ":" ++
      endColumn ++ toString nextRow
    (ws1 ++ [SheetWrite.rowWrite rowRange row], Except.ok nextRow)

/-- POST /export/sheets on a given store and card id: swap repair with
persistence, then the write pipeline on the repaired card using the
Sheets-path working title (404 path yields none). -/
def sheetsExport (s : Store) (cardId : String) (sheetName : String)
    (sheetExists : Bool) (existingValues : List (List String)) :
    Store × Option (List SheetWrite × Except RowError Nat) :=
  ((validatePass s cardId).1,
   (validatePass s cardId).2.map fun c1 =>
     sheetsPipeline sheetName sheetExists existingValues c1 (sheetsTitle c1))

/-- JavaScript `a || b` on strings: empty is falsy. -/
def jsOrS (a b : String) : String := if a = "" then b else a

/-- config.google.sheets.sheetName (config.ts line 32):
`process.env.GOOGLE_SHEETS_SHEET_NAME || "Cards"`. -/
def configSheetName (envSheetName : Option String) : String :=
  jsOrS (envSheetName.getD "") "Cards"

/-- Sheet tab name resolution (exportController.ts line 158):
`config.google.sheets.sheetName || req.body.sheetName || "Cards"`. -/
def requestSheetName (envSheetName bodySheetName : Option String) : String :=
  jsOrS (jsOrS (configSheetName envSheetName) (bodySheetName.getD "")) "Cards"

/-- config.nodeEnv (config.ts line 18): `process.env.NODE_ENV ||
"development"`. -/
def nodeEnvOf (envVar : Option String) : String :=
  jsOrS (envVar.getD "") "development"

/-- The catch-all failure response of POST /export/sheets (lines 535-542):
status 500, fixed error text, and details carrying the underlying message
only when config.nodeEnv is exactly "development". -/
def sheetsCatchResponse (nodeEnv errorMessage : String) :
    Nat × String × Option String :=
  (500, "Google Sheets export failed",
   if nodeEnv = "development" then some errorMessage else none)

/-! Concrete records used to instantiate the theorems below. -/

def emptyNormalized : Normalized := ⟨[], [], [], [], [], [], [], [], [], []⟩

def emptyCard : Card :=
  { normalized := emptyNormalized, autoTitle := [], autoDescription := [] }

/-- A card whose generated title is longer than its generated description
while both stay under every repair threshold. -/
def cardShortPair : Card :=
  { normalized := emptyNormalized, autoTitle := strOf "ab",
    autoDescription := strOf "c" }

/-- A card whose normalized title coincides with its generated
description. -/
def cardSameAsDesc : Card :=
  { normalized := { emptyNormalized with title := strOf "X" },
    autoTitle := [], autoDescription := strOf "X" }

/-- A card sending the identity-defect fallback itself into the literal
description value. -/
def cardUntitledDesc : Card :=
  { normalized := emptyNormalized, autoTitle := strOf "Untitled",
    autoDescription := strOf "Untitled" }

/-- A card exhibiting the swap defect. -/
def cardSwapped : Card :=
  { normalized := emptyNormalized, autoTitle := List.replicate 201 'a',
    autoDescription := strOf "short desc" }

def storeOne : Store :=
  fun k => if k = "card1" then some cardSwapped else none

/-- A well-formed card for the success-path witnesses. -/
def cardGood : Card :=
  { normalized := { emptyNormalized with title := strOf "Nice title" },
    autoTitle := strOf "ab", autoDescription := strOf "abc" }

def storeGood : Store :=
  fun k => if k = "card2" then some cardGood else none

def legacyHeader : List String :=
  ["Year", "Set", "Card Number", "Listing Title", "Player First Name",
   "Player Last Name", "Grading Company", "Grade", "Cert", "Listing Caption",
   "Auto Title", "Auto Description"]

/-! Helper lemmas. -/

theorem length_dropWhile_le (p : Char → Bool) (l : Str) :
    (l.dropWhile p).length ≤ l.length := by
  induction l with
  | nil => simp [List.dropWhile]
  | cons a l ih =>
    by_cases h : p a
    · simp only [List.dropWhile_cons, h, if_true, List.length_cons]
      omega
    · simp [List.dropWhile_cons, h]

theorem jsTrim_length_le (s : Str) : (jsTrim s).length ≤ s.length := by
  unfold jsTrim
  have h1 := length_dropWhile_le isJsSpace s
  have h2 := length_dropWhile_le isJsSpace (s.dropWhile isJsSpace).reverse
  simp only [List.length_reverse] at *
  omega

theorem matchTitle_length_le {s p : Str} (h : matchTitle s = some p) :
    p.length ≤ 150 := by
  unfold matchTitle at h
  rw [Option.map_eq_some'] at h
  obtain ⟨n, hn, hp⟩ := h
  have hmem := List.mem_of_find?_eq_some hn
  rw [List.mem_range] at hmem
  have hn150 : n ≤ 150 := by
    have := Nat.lt_succ_iff.mp hmem
    exact le_trans this (min_le_left _ _)
  have hlen : (s.take n).length ≤ n := List.length_take_le n s
  subst hp
  omega

theorem extractTitle_length_le (t : Str) : (extractTitle t).length ≤ 150 := by
  unfold extractTitle
  have htake : (jsTrim (t.take 100)).length ≤ 150 := by
    have h1 := jsTrim_length_le (t.take 100)
    have h2 : (t.take 100).length ≤ 100 := List.length_take_le 100 t
    omega
  cases hm : matchTitle t with
  | none => exact htake
  | some p =>
    show (if p ≠ [] then jsTrim p else jsTrim (t.take 100)).length ≤ 150
    by_cases hp : p ≠ []
    · rw [if_pos hp]
      exact le_trans (jsTrim_length_le p) (matchTitle_length_le hm)
    · rw [if_neg hp]
      exact htake

theorem embeddedRepair_spec (c : Card) (t : Str) :
    (¬(150 < t.length ∧ strIncludes t (c.autoDescription.take 50) = true) ∧
      embeddedRepair c t = t) ∨
    (embeddedRepair c t).length ≤ 150 := by
  unfold embeddedRepair
  by_cases h : 150 < t.length ∧ strIncludes t (c.autoDescription.take 50) = true
  · right
    rw [if_pos h]
    exact extractTitle_length_le t
  · left
    exact ⟨h, if_neg h⟩

theorem buildRowData_length (c : Card) (t : Str) (idx : Nat) :
    (buildRowData c t idx).length = (if idx = 11 then 12 else 11) := by
  unfold buildRowData
  by_cases h : idx = 11
  · rw [if_pos h, if_pos h]
    rfl
  · rw [if_neg h, if_neg h]
    rfl

theorem buildRow_eq (c : Card) (t : Str) (idx : Nat) :
    buildRow c t idx =
      (if (buildRowData c t idx).getD 3 [] ≠ [] ∧
          (buildRowData c t idx).getD idx [] ≠ [] ∧
          (buildRowData c t idx).getD 3 [] = (buildRowData c t idx).getD idx [] then
        Except.error RowError.titleEqualsDesc
      else if (buildRowData c t idx).getD 3 [] ≠ [] ∧
          (buildRowData c t idx).getD idx [] ≠ [] ∧
          ((buildRowData c t idx).getD idx []).length <
            ((buildRowData c t idx).getD 3 []).length then
        Except.error RowError.titleLongerThanDesc
      else Except.ok (buildRowData c t idx)) := by
  simp only [buildRow]
  rw [if_neg (by rw [buildRowData_length c t idx]; exact fun hx => hx rfl)]

theorem validatePass_found (s : Store) (cardId : String) (c : Card)
    (hget : s cardId = some c) :
    validatePass s cardId =
      (if c.autoTitle ≠ [] ∧ c.autoDescription ≠ [] ∧
          200 < c.autoTitle.length ∧ c.autoDescription.length < 100 then
        (Store.set s cardId (swapCard c), some (swapCard c))
      else (s, some c)) := by
  unfold validatePass
  rw [hget]

theorem validatePass_fst (s : Store) (cardId : String) (c : Card)
    (hget : s cardId = some c) :
    (validatePass s cardId).1 cardId = some (swapRepair c) ∧
    (validatePass s cardId).2 = some (swapRepair c) ∧
    (∀ k, k ≠ cardId → (validatePass s cardId).1 k = s k) := by
  rw [validatePass_found s cardId c hget]
  unfold swapRepair
  by_cases h : c.autoTitle ≠ [] ∧ c.autoDescription ≠ [] ∧
      200 < c.autoTitle.length ∧ c.autoDescription.length < 100
  · rw [if_pos h, if_pos h]
    refine ⟨?_, rfl, ?_⟩
    · simp [Store.set]
    · intro k hk
      simp [Store.set, hk]
  · rw [if_neg h, if_neg h]
    exact ⟨hget, rfl, fun k _ => rfl⟩

/-! Claim theorems. -/

/-- C3: for a record with both generated fields present, autoTitle longer
than 200 characters and autoDescription shorter than 100, one validator
pass swaps the two fields and persists the swapped record back to the card
store, and a second pass on the result performs no swap and leaves both the
store and the record unchanged. -/
theorem swap_repair_idempotent (s : Store) (cardId : String) (c : Card)
    (hget : s cardId = some c) (hta : c.autoTitle ≠ [])
    (hda : c.autoDescription ≠ []) (hlen1 : 200 < c.autoTitle.length)
    (hlen2 : c.autoDescription.length < 100) :
    validatePass s cardId =
      (Store.set s cardId (swapCard c), some (swapCard c)) ∧
    (swapCard c).autoTitle = c.autoDescription ∧
    (swapCard c).autoDescription = c.autoTitle ∧
    validatePass (Store.set s cardId (swapCard c)) cardId =
      (Store.set s cardId (swapCard c), some (swapCard c)) := by
  have hcond : c.autoTitle ≠ [] ∧ c.autoDescription ≠ [] ∧
      200 < c.autoTitle.length ∧ c.autoDescription.length < 100 :=
    ⟨hta, hda, hlen1, hlen2⟩
  refine ⟨?_, rfl, rfl, ?_⟩
  · rw [validatePass_found s cardId c hget, if_pos hcond]
  · have hget2 : (Store.set s cardId (swapCard c)) cardId = some (swapCard c) := by
      simp [Store.set]
    rw [validatePass_found _ cardId (swapCard c) hget2, if_neg ?_]
    intro hcond2
    simp only [swapCard] at hcond2
    omega

set_option maxRecDepth 10000 in
theorem swap_repair_idempotent_witness :
    storeOne "card1" = some cardSwapped ∧
    cardSwapped.autoTitle ≠ [] ∧ cardSwapped.autoDescription ≠ [] ∧
    200 < cardSwapped.autoTitle.length ∧
    cardSwapped.autoDescription.length < 100 ∧
    (validatePass storeOne "card1" =
      (Store.set storeOne "card1" (swapCard cardSwapped), some (swapCard cardSwapped)) ∧
     (swapCard cardSwapped).autoTitle = cardSwapped.autoDescription ∧
     (swapCard cardSwapped).autoDescription = cardSwapped.autoTitle ∧
     validatePass (Store.set storeOne "card1" (swapCard cardSwapped)) "card1" =
       (Store.set storeOne "card1" (swapCard cardSwapped), some (swapCard cardSwapped))) :=
  ⟨rfl, by decide, by decide, by decide, by decide,
   swap_repair_idempotent storeOne "card1" cardSwapped rfl (by decide)
     (by decide) (by decide) (by decide)⟩

/-- C5: for an existing header row of length 12 whose cell 11 is
"Auto Description", classification returns description column index 11, and
the needsHeaderUpdate flag is false exactly when cell 10 is "Auto Title". -/
theorem classify_legacy12 (h : List String) (hlen : h.length = 12)
    (h11 : h.getD 11 "" = "Auto Description") :
    (classifyHeader h).1 = 11 ∧
    ((classifyHeader h).2 = false ↔ h.getD 10 "" = "Auto Title") := by
  unfold classifyHeader
  rw [if_pos ⟨hlen, h11⟩]
  by_cases h10 : h.getD 10 "" = "Auto Title"
  · rw [if_pos (Or.inl h10), h10]
    exact ⟨rfl, by decide⟩
  · by_cases h10d : h.getD 10 "" = "Auto Description"
    · rw [if_pos (Or.inr h10d), h10d]
      exact ⟨rfl, by decide⟩
    · have hor : ¬(h.getD 10 "" = "Auto Title" ∨ h.getD 10 "" = "Auto Description") := by
        tauto
      rw [if_neg hor]
      exact ⟨rfl, iff_of_false (by decide) h10⟩

theorem classify_legacy12_witness :
    legacyHeader.length = 12 ∧ legacyHeader.getD 11 "" = "Auto Description" ∧
    ((classifyHeader legacyHeader).1 = 11 ∧
     ((classifyHeader legacyHeader).2 = false ↔
       legacyHeader.getD 10 "" = "Auto Title")) :=
  ⟨rfl, rfl, classify_legacy12 legacyHeader rfl rfl⟩

/-- C10: the sheet tab name actually used by POST /export/sheets is always
the configured sheet name, which is never empty (it defaults to the literal
"Cards"); a sheetName supplied in the request body is never used. -/
theorem sheetName_ignores_body (envSheetName bodySheetName : Option String) :
    requestSheetName envSheetName bodySheetName = configSheetName envSheetName ∧
    configSheetName envSheetName ≠ "" := by
  have hne : configSheetName envSheetName ≠ "" := by
    cases envSheetName with
    | none => decide
    | some s =>
      by_cases hs : s = ""
      · subst hs; decide
      · simp only [configSheetName, Option.getD_some, jsOrS, if_neg hs]
        exact hs
  exact ⟨by simp [requestSheetName, jsOrS, hne], hne⟩

/-- C7 counterexample: the NODE_ENV value "test" is a non-production mode,
yet the 500 response of POST /export/sheets omits the details field there,
because the code keys the details on equality with "development" rather
than on inequality with "production". -/
theorem sheets_failure_details_cex :
    nodeEnvOf (some "test") ≠ "production" ∧
    (sheetsCatchResponse (nodeEnvOf (some "test")) "boom").2.2 = none := by
  decide

/-- C7 amended: the catch-all response of POST /export/sheets has status
500 and includes the details field exactly when config.nodeEnv is the
literal "development" (in particular details is omitted in production, but
also in every other non-development mode). -/
theorem sheets_failure_details (nodeEnv errorMessage : String) :
    (sheetsCatchResponse nodeEnv errorMessage).1 = 500 ∧
    ((sheetsCatchResponse nodeEnv errorMessage).2.2 = some errorMessage ↔
      nodeEnv = "development") := by
  refine ⟨rfl, ?_⟩
  unfold sheetsCatchResponse
  by_cases h : nodeEnv = "development"
  · simp [h]
  · simp [h]

/-- C4 counterexample: on a record whose cells are all empty, row cell 3
equals the description cell (both are empty), which the claim lists as a
violation that must fail the build, yet the build succeeds because the code
guards both comparisons behind non-emptiness of the two cells. -/
theorem row_checks_empty_cex :
    buildRow emptyCard [] 10 = Except.ok (buildRowData emptyCard [] 10) ∧
    (buildRowData emptyCard [] 10).getD 3 [] =
      (buildRowData emptyCard [] 10).getD 10 [] :=
  ⟨rfl, rfl⟩

/-- C4 amended: the built row always has exactly the schema-expected length
(12 when the classified index is 11, else 11), so the length check never
fires, and the build fails if and only if row cell 3 and the description
cell are BOTH non-empty and are equal or the title cell is strictly
longer. -/
theorem row_checks_characterization (c : Card) (t : Str) (idx : Nat) :
    (buildRowData c t idx).length = (if idx = 11 then 12 else 11) ∧
    ((∃ e, buildRow c t idx = Except.error e) ↔
      ((buildRowData c t idx).getD 3 [] ≠ [] ∧
       (buildRowData c t idx).getD idx [] ≠ [] ∧
       ((buildRowData c t idx).getD 3 [] = (buildRowData c t idx).getD idx [] ∨
        ((buildRowData c t idx).getD idx []).length <
          ((buildRowData c t idx).getD 3 []).length))) := by
  refine ⟨buildRowData_length c t idx, ?_⟩
  rw [buildRow_eq]
  by_cases h1 : (buildRowData c t idx).getD 3 [] ≠ [] ∧
      (buildRowData c t idx).getD idx [] ≠ [] ∧
      (buildRowData c t idx).getD 3 [] = (buildRowData c t idx).getD idx []
  · rw [if_pos h1]
    exact iff_of_true ⟨RowError.titleEqualsDesc, rfl⟩
      ⟨h1.1, h1.2.1, Or.inl h1.2.2⟩
  · rw [if_neg h1]
    by_cases h2 : (buildRowData c t idx).getD 3 [] ≠ [] ∧
        (buildRowData c t idx).getD idx [] ≠ [] ∧
        ((buildRowData c t idx).getD idx []).length <
          ((buildRowData c t idx).getD 3 []).length
    · rw [if_pos h2]
      exact iff_of_true ⟨RowError.titleLongerThanDesc, rfl⟩
        ⟨h2.1, h2.2.1, Or.inr h2.2.2⟩
    · rw [if_neg h2]
      refine iff_of_false ?_ ?_
      · rintro ⟨e, he⟩
        exact Except.noConfusion he
      · rintro ⟨ha, hb, hc | hc⟩
        · exact h1 ⟨ha, hb, hc⟩
        · exact h2 ⟨ha, hb, hc⟩

/-- C6: when the post-build row validation fails, the Sheets pipeline
returns that error having issued no values.update call at all: neither the
header range nor the data row range is written (the only effect that can
precede the failure is the add-sheet batchUpdate for a missing tab). -/
theorem sheets_aborts_without_write (sheetName : String) (sheetExists : Bool)
    (existingValues : List (List String)) (c : Card) (t : Str) (e : RowError)
    (h : buildRow c t (classifyValues existingValues).1 = Except.error e) :
    sheetsPipeline sheetName sheetExists existingValues c t =
      ((if sheetExists then [] else [SheetWrite.addSheet sheetName]),
        Except.error e) ∧
    ∀ w ∈ (sheetsPipeline sheetName sheetExists existingValues c t).1,
      SheetWrite.isValuesUpdate w = false := by
  have hp : sheetsPipeline sheetName sheetExists existingValues c t =
      ((if sheetExists then [] else [SheetWrite.addSheet sheetName]),
        Except.error e) := by
    simp only [sheetsPipeline]
    rw [h]
  refine ⟨hp, ?_⟩
  rw [hp]
  by_cases hs : sheetExists
  · simp [hs]
  · simp [hs, SheetWrite.isValuesUpdate]

theorem sheets_aborts_without_write_witness :
    buildRow cardShortPair (strOf "ab") (classifyValues []).1 =
      Except.error RowError.titleLongerThanDesc ∧
    sheetsPipeline "Cards" true [] cardShortPair (strOf "ab") =
      ([], Except.error RowError.titleLongerThanDesc) :=
  ⟨rfl,
   ((sheets_aborts_without_write "Cards" true [] cardShortPair (strOf "ab")
      RowError.titleLongerThanDesc rfl).1).trans (by rfl)⟩

/-- C1 counterexample: a card with autoTitle "ab" and autoDescription "c"
passes through the whole repair chain unchanged (no threshold fires), so
the validator output has both fields non-empty with the working listing
title STRICTLY longer than the description, on the CSV path and on the
Sheets path alike. -/
theorem length_invariant_cex :
    validatorTitle cardShortPair ≠ [] ∧
    cardShortPair.autoDescription ≠ [] ∧
    cardShortPair.autoDescription.length < (validatorTitle cardShortPair).length ∧
    sheetsTitle cardShortPair = validatorTitle cardShortPair := by
  decide

/-- C1 amended: the repair chain does not establish the length invariant by
construction; the invariant holds only at the Sheets row-build boundary:
every row accepted by the post-build validation whose title cell and
description cell are both non-empty satisfies the length invariant. -/
theorem length_invariant_at_build (c : Card) (t : Str) (idx : Nat)
    (row : List Str) (hok : buildRow c t idx = Except.ok row)
    (h3 : row.getD 3 [] ≠ []) (hd : row.getD idx [] ≠ []) :
    (row.getD 3 []).length ≤ (row.getD idx []).length := by
  rw [buildRow_eq] at hok
  split at hok
  · exact Except.noConfusion hok
  · split at hok
    · exact Except.noConfusion hok
    · next hlt =>
      injection hok with hrow
      subst hrow
      have hnl : ¬((buildRowData c t idx).getD idx []).length <
          ((buildRowData c t idx).getD 3 []).length :=
        fun hc => hlt ⟨h3, hd, hc⟩
      omega

theorem length_invariant_at_build_witness :
    buildRow cardGood (strOf "ab") 10 =
      Except.ok (buildRowData cardGood (strOf "ab") 10) ∧
    (buildRowData cardGood (strOf "ab") 10).getD 3 [] ≠ [] ∧
    (buildRowData cardGood (strOf "ab") 10).getD 10 [] ≠ [] ∧
    ((buildRowData cardGood (strOf "ab") 10).getD 3 []).length ≤
      ((buildRowData cardGood (strOf "ab") 10).getD 10 []).length :=
  ⟨rfl, by decide, by decide,
   length_invariant_at_build cardGood (strOf "ab") 10 _ rfl (by decide)
     (by decide)⟩

/-- C2 counterexample: on a card whose normalized title equals its
non-empty autoDescription, the identity-defect repair falls back to that
very normalized title, so the validator output (exported as Listing Title
by the CSV path) IS textually equal to autoDescription. -/
theorem never_equal_cex :
    cardSameAsDesc.autoDescription ≠ [] ∧
    validatorTitle cardSameAsDesc = cardSameAsDesc.autoDescription := by
  decide

/-- C2 amended: the working listing title differs from a non-empty
autoDescription provided the fallback titles themselves differ from
autoDescription (normalized title when non-empty, else the literal
"Untitled" for the shared chain and "Untitled Card" for the Sheets final
check); the code re-checks equality only against these fallbacks. -/
theorem never_equal_amended (c : Card) (hd : c.autoDescription ≠ [])
    (hfb1 : fallbackTitle c (strOf "Untitled") ≠ c.autoDescription)
    (hfb2 : fallbackTitle c (strOf "Untitled Card") ≠ c.autoDescription) :
    validatorTitle c ≠ c.autoDescription ∧
    sheetsTitle c ≠ c.autoDescription := by
  have h1 : validatorTitle c ≠ c.autoDescription := by
    unfold validatorTitle
    by_cases hw : workingTitle0 c ≠ [] ∧ c.autoDescription ≠ []
    · rw [if_pos hw]
      unfold identityRepair
      by_cases hid : embeddedRepair c (workingTitle0 c) = c.autoDescription
      · rw [if_pos hid]
        exact hfb1
      · rw [if_neg hid]
        exact hid
    · rw [if_neg hw]
      have hw0 : workingTitle0 c = [] := by
        by_contra hne
        exact hw ⟨hne, hd⟩
      rw [hw0]
      exact fun heq => hd heq.symm
  refine ⟨h1, ?_⟩
  unfold sheetsTitle finalSafety
  by_cases hv : validatorTitle c ≠ [] ∧ c.autoDescription ≠ []
  · rw [if_pos hv]
    by_cases hc : validatorTitle c = c.autoDescription ∨
        (200 < (validatorTitle c).length ∧
          strIncludes (validatorTitle c) (c.autoDescription.take 50) = true)
    · rw [if_pos hc]
      exact hfb2
    · rw [if_neg hc]
      exact h1
  · rw [if_neg hv]
    exact h1

theorem never_equal_amended_witness :
    cardGood.autoDescription ≠ [] ∧
    fallbackTitle cardGood (strOf "Untitled") ≠ cardGood.autoDescription ∧
    fallbackTitle cardGood (strOf "Untitled Card") ≠ cardGood.autoDescription ∧
    (validatorTitle cardGood ≠ cardGood.autoDescription ∧
     sheetsTitle cardGood ≠ cardGood.autoDescription) :=
  ⟨by decide, by decide, by decide,
   never_equal_amended cardGood (by decide) (by decide) (by decide)⟩

/-- C8: an export call on a present card leaves every normalized field of
the stored record unchanged and every other store key untouched; the
record stored after the call is exactly the swap repair of the original,
which either equals it or merely exchanges autoTitle and autoDescription.
This covers the CSV path and the Sheets path. -/
theorem export_frame (s : Store) (cardId : String) (c : Card)
    (sheetName : String) (sheetExists : Bool)
    (existingValues : List (List String)) (hget : s cardId = some c) :
    (csvExport s cardId).1 cardId = some (swapRepair c) ∧
    (sheetsExport s cardId sheetName sheetExists existingValues).1 cardId =
      some (swapRepair c) ∧
    (swapRepair c).normalized = c.normalized ∧
    (swapRepair c = c ∨ ((swapRepair c).autoTitle = c.autoDescription ∧
      (swapRepair c).autoDescription = c.autoTitle)) ∧
    (∀ k, k ≠ cardId → (csvExport s cardId).1 k = s k ∧
      (sheetsExport s cardId sheetName sheetExists existingValues).1 k = s k) := by
  obtain ⟨h1, _, h3⟩ := validatePass_fst s cardId c hget
  have hcsv : (csvExport s cardId).1 = (validatePass s cardId).1 := rfl
  have hsheets :
      (sheetsExport s cardId sheetName sheetExists existingValues).1 =
        (validatePass s cardId).1 := rfl
  have hnorm : (swapRepair c).normalized = c.normalized := by
    unfold swapRepair
    split
    · rfl
    · rfl
  have hdisj : swapRepair c = c ∨ ((swapRepair c).autoTitle = c.autoDescription ∧
      (swapRepair c).autoDescription = c.autoTitle) := by
    unfold swapRepair
    split
    · right
      exact ⟨rfl, rfl⟩
    · left
      rfl
  exact ⟨hcsv ▸ h1, hsheets ▸ h1, hnorm, hdisj,
    fun k hk => ⟨hcsv ▸ h3 k hk, hsheets ▸ h3 k hk⟩⟩

theorem export_frame_witness :
    storeGood "card2" = some cardGood ∧
    ((csvExport storeGood "card2").1 "card2" = some (swapRepair cardGood) ∧
     (sheetsExport storeGood "card2" "Cards" true []).1 "card2" =
       some (swapRepair cardGood) ∧
     (swapRepair cardGood).normalized = cardGood.normalized ∧
     (swapRepair cardGood = cardGood ∨
      ((swapRepair cardGood).autoTitle = cardGood.autoDescription ∧
       (swapRepair cardGood).autoDescription = cardGood.autoTitle)) ∧
     (∀ k, k ≠ "card2" → (csvExport storeGood "card2").1 k = storeGood k ∧
       (sheetsExport storeGood "card2" "Cards" true []).1 k = storeGood k)) :=
  ⟨rfl, export_frame storeGood "card2" cardGood "Cards" true [] rfl⟩

/-- C9 counterexample: on a card with empty normalized title and both
generated fields equal to "Untitled", the shared chain yields "Untitled"
(which the CSV path exports) while the Sheets final safety check rewrites
it to "Untitled Card", so the two in-lined validations are NOT equivalent
functions of the record. -/
theorem title_paths_cex :
    validatorTitle cardUntitledDesc = strOf "Untitled" ∧
    sheetsTitle cardUntitledDesc = strOf "Untitled Card" ∧
    sheetsTitle cardUntitledDesc ≠ validatorTitle cardUntitledDesc := by
  decide

/-- C9 amended: the CSV-path working title and the Sheets-path working
title immediately before row construction agree on every record whose
normalized title is non-empty or whose autoDescription differs from the
literal "Untitled" (the single diverging corner is the identity-defect
fallback with empty normalized title and autoDescription "Untitled"). -/
theorem title_paths_agree (c : Card)
    (h : c.normalized.title ≠ [] ∨ c.autoDescription ≠ strOf "Untitled") :
    sheetsTitle c = validatorTitle c := by
  unfold sheetsTitle finalSafety
  by_cases h1 : validatorTitle c ≠ [] ∧ c.autoDescription ≠ []
  · rw [if_pos h1]
    by_cases h2 : validatorTitle c = c.autoDescription ∨
        (200 < (validatorTitle c).length ∧
          strIncludes (validatorTitle c) (c.autoDescription.take 50) = true)
    · rw [if_pos h2]
      have hd := h1.2
      have hw0 : workingTitle0 c ≠ [] := by
        intro hw
        have hve : validatorTitle c = [] := by
          unfold validatorTitle
          rw [if_neg (fun hx => hx.1 hw), hw]
        exact h1.1 hve
      have hv : validatorTitle c =
          identityRepair c (embeddedRepair c (workingTitle0 c)) := by
        unfold validatorTitle
        rw [if_pos ⟨hw0, hd⟩]
      by_cases hid : embeddedRepair c (workingTitle0 c) = c.autoDescription
      · have hv2 : validatorTitle c = fallbackTitle c (strOf "Untitled") := by
          rw [hv]
          unfold identityRepair
          rw [if_pos hid]
        by_cases hnt : c.normalized.title ≠ []
        · unfold fallbackTitle
          rw [if_pos hnt, hv2]
          unfold fallbackTitle
          rw [if_pos hnt]
        · have hvU : validatorTitle c = strOf "Untitled" := by
            rw [hv2]
            unfold fallbackTitle
            rw [if_neg hnt]
          have hdU : c.autoDescription ≠ strOf "Untitled" := h.resolve_left hnt
          rcases h2 with h2a | h2b
          · rw [hvU] at h2a
            exact absurd h2a.symm hdU
          · rw [hvU] at h2b
            exact absurd h2b.1 (by decide)
      · have hv3 : validatorTitle c = embeddedRepair c (workingTitle0 c) := by
          rw [hv]
          unfold identityRepair
          rw [if_neg hid]
        rcases h2 with h2a | h2b
        · rw [hv3] at h2a
          exact absurd h2a hid
        · rcases embeddedRepair_spec c (workingTitle0 c) with ⟨hnc, heq⟩ | hle
          · rw [heq] at hv3
            rw [hv3] at h2b
            exact absurd ⟨lt_trans (show (150 : Nat) < 200 by omega) h2b.1,
              h2b.2⟩ hnc
          · rw [hv3] at h2b
            omega
    · rw [if_neg h2]
  · rw [if_neg h1]

theorem title_paths_agree_witness :
    cardGood.normalized.title ≠ [] ∧
    sheetsTitle cardGood = validatorTitle cardGood :=
  ⟨by decide, title_paths_agree cardGood (Or.inl (by decide))⟩
